import Mathlib

set_option maxRecDepth 8000

/-!
Shallow embedding of the MapMaker core pipeline (src/streamlit_app.py):
the tabular reader (`read_data`, `read_file`), the schema validator
(`validate_data`) and the plot specification builder (`create_plot`,
`create_quantitative_plot`, `create_nominal_plot`), together with the
constants they use.  Python scalar values are modelled by `Value`,
dynamically typed Python arguments by `PyVal`, pandas data frames by
`Table` (an ordered list of named columns), and the Altair layered chart
produced by the builder by `LayerChart`.
-/

/-- A scalar cell value of a parsed table.  Floats are opaque (their bit
pattern is irrelevant to the pipeline, only their type matters). -/
inductive Value where
  | VInt (n : Int)
  | VFloat (bits : Nat)
  | VStr (s : String)
  | VNull
  deriving DecidableEq, Repr

/-- One named column of a pandas data frame. -/
structure Column where
  name : String
  values : List Value
  deriving DecidableEq, Repr

/-- A pandas data frame: an ordered sequence of named columns. -/
abbrev Table := List Column

/-- A dynamically typed Python value, as passed to the plot builder.
Needed because `create_plot` is called with strings, numbers, `None`
and lists in the same parameter positions.  Lists carry strings: every
list reaching the builder is a list of column names. -/
inductive PyVal where
  | none
  | str (s : String)
  | num (q : Rat)
  | list (xs : List String)
  deriving DecidableEq, Repr

/-- Python `str(x)` as used by f-string interpolation (only the cases the
pipeline can reach matter; strings render as themselves). -/
def pyStr : PyVal → String
  | PyVal.none => "None"
  | PyVal.str s => s
  | PyVal.num q => toString q.num ++ "/" ++ toString q.den
  | PyVal.list _ => "[list]"

/-- Python iteration over a value, as performed by `list.extend` and by a
comprehension: lists yield their elements, strings yield their characters
as one-character strings, anything else raises a TypeError. -/
def pyIterate : PyVal → Except String (List PyVal)
  | PyVal.list xs => Except.ok (xs.map PyVal.str)
  | PyVal.str s => Except.ok (s.data.map (fun c => PyVal.str (String.mk [c])))
  | PyVal.none => Except.error "TypeError: NoneType object is not iterable"
  | PyVal.num _ => Except.error "TypeError: float object is not iterable"

/-- Message of the ValueError raised for a table with fewer than two
columns (`InsufficientColumns` in the spec's taxonomy). -/
def insufficientColumnsMsg : String :=
  "data should have at least a NIS code and a data column"

/-- Message of the ValueError raised when several columns match the join
key name (`AmbiguousJoinKey`). -/
def ambiguousJoinKeyMsg : String := "multiple columns have NIS code name"

/-- Message of the ValueError raised when no column matches the join key
name (`MissingJoinKey`). -/
def missingJoinKeyMsg : String := "NIS code column is missing"

/-- Message of the ValueError raised when the join key column is not of
int64 dtype (`InvalidJoinKeyType`); the typo is the source's. -/
def invalidJoinKeyTypeMsg : String :=
  "data type for NIS code is incorret, should be integer"

/-- Message modelling the AttributeError pandas would raise if the column
`niscode` were absent when `data.niscode` is accessed (dead branch). -/
def attributeErrorMsg : String := "AttributeError: niscode"

/-- Python `col_name.lower() == 'niscode'`, the case-insensitive join key
match performed on each column name. -/
def isNisName (s : String) : Bool :=
  s.data.map Char.toLower == "niscode".data

/-- The list comprehension
`[idx for idx, col_name in enumerate(data.columns) if col_name.lower() == 'niscode']`,
with `k` the index of the first column (the enumeration origin). -/
def nisPositionsFrom (k : Nat) : List Column → List Nat
  | [] => []
  | c :: rest =>
    if isNisName c.name then k :: nisPositionsFrom (k + 1) rest
    else nisPositionsFrom (k + 1) rest

/-- Positions (0-based) of the columns whose name matches the join key. -/
def nisPositions (data : Table) : List Nat := nisPositionsFrom 0 data

/-- The in-place rename
`columns = list(data.columns); columns[pos[0]] = 'niscode'; data.columns = columns`:
the column at the first matching position gets the canonical name, its
values are untouched. -/
def renameNisColumn (data : Table) : Table :=
  match nisPositions data with
  | [] => data
  | i :: _ =>
    match data[i]? with
    | Option.some c => data.set i (Column.mk "niscode" c.values)
    | Option.none => data

/-- Smallest and largest 64-bit signed integers. -/
def int64Min : Int := -(2 ^ 63)

/-- Largest 64-bit signed integer. -/
def int64Max : Int := 2 ^ 63 - 1

/-- Whether one cell value is a genuine 64-bit integer. -/
def isInt64Value : Value → Bool
  | Value.VInt n => decide (int64Min ≤ n ∧ n ≤ int64Max)
  | _ => false

/-- The dtype check `data.niscode.dtype != np.int64`, modelled value-wise:
the underlying parser assigns dtype int64 to a column exactly when every
parsed value is an integer in 64-bit signed range (a float, text or null
value forces a non-integer dtype). -/
def int64Dtype (vals : List Value) : Bool := vals.all isInt64Value

/-- The final step of `validate_data`: look up the column now named
`niscode` (the pandas attribute access `data.niscode`) and check its
dtype, returning the error message if any. -/
def nisDtypeCheck (renamed : Table) : Option String :=
  match renamed.find? (fun c => c.name == "niscode") with
  | Option.some c =>
    if int64Dtype c.values then Option.none else Option.some invalidJoinKeyTypeMsg
  | Option.none => Option.some attributeErrorMsg

/-- `validate_data(data)`.  Python mutates the data frame in place and
raises on failure; this is modelled by returning the raised message (if
any) together with the final state of the table.  The branch structure
mirrors the source: column count first, then the ambiguity check, then
the missing check, then rename followed by the dtype check. -/
def validate_data (data : Table) : Option String × Table :=
  if data.length < 2 then (Option.some insufficientColumnsMsg, data)
  else if 1 < (nisPositions data).length then (Option.some ambiguousJoinKeyMsg, data)
  else if (nisPositions data).length = 0 then (Option.some missingJoinKeyMsg, data)
  else (nisDtypeCheck (renameNisColumn data), renameNisColumn data)

/-- Python `name.lower().endswith(post)`. -/
def lowerEndsWith (s : String) (post : String) : Bool :=
  post.data.isSuffixOf (s.data.map Char.toLower)

/-- The parse call the reader delegates to: `pd.read_csv` with the
supplied encoding and delimiter, or `pd.read_excel` (which receives
neither).  `α` is the source handed to pandas (a URI, or a byte buffer
wrapped in `io.BytesIO`). -/
inductive ParseAction (α : Type) where
  | readCsv (src : α) (encoding : Option String) (delimiter : Option String)
  | readExcel (src : α)
  deriving DecidableEq, Repr

/-- The ValueError message for an unknown file type; the doubled quotes
are the source's. -/
def unknownFileTypeMsg (name : String) : String :=
  "file type of \"\"" ++ name ++ "\"\" is unknown"

/-- `read_data(uri, encoding, delimiter)`: dispatch on the lowercased
suffix of the URI. -/
def read_data (uri : String) (encoding : Option String) (delimiter : Option String) :
    Except String (ParseAction String) :=
  if lowerEndsWith uri ".csv" then Except.ok (ParseAction.readCsv uri encoding delimiter)
  else if lowerEndsWith uri ".xlsx" then Except.ok (ParseAction.readExcel uri)
  else Except.error (unknownFileTypeMsg uri)

/-- `read_file(name, byte_stream, encoding, delimiter)`: same dispatch on
the display name, parsing the in-memory bytes. -/
def read_file (name : String) (byte_stream : List Nat) (encoding : Option String)
    (delimiter : Option String) : Except String (ParseAction (List Nat)) :=
  if lowerEndsWith name ".csv" then
    Except.ok (ParseAction.readCsv byte_stream encoding delimiter)
  else if lowerEndsWith name ".xlsx" then Except.ok (ParseAction.readExcel byte_stream)
  else Except.error (unknownFileTypeMsg name)

/-- `alt.topo_feature(url, feature)`: the boundary dataset reference. -/
structure TopoData where
  url : String
  feature : String
  deriving DecidableEq, Repr

/-- `create_topo_data(url, feature)`. -/
def create_topo_data (url : String) (feature : String) : TopoData :=
  TopoData.mk url feature

/-- URL of the Belgian municipalities boundary dataset (`BE_GEO_URL`). -/
def BE_GEO_URL : String :=
  "https://gist.githubusercontent.com/jandot/ba7eff2e15a38c6f809ba5e8bd8b6977/raw/eb49ce8dd2604e558e10e15d9a3806f114744e80/belgium_municipalities_topojson.json"

/-- Name of the feature layer (`BE_MUNICIPALITIES_FEATURE`). -/
def BE_MUNICIPALITIES_FEATURE : String := "BE_municipalities"

/-- The base layer: `alt.Chart(topo_data).mark_geoshape(stroke=..., strokeWidth=...)`
encoded with a constant fill (the missing-data color) and constant
opacity 0.9, over every boundary feature (no lookup). -/
structure BaseLayer where
  topo : TopoData
  stroke : PyVal
  strokeWidth : PyVal
  colorValue : PyVal
  opacityValue : Rat
  deriving DecidableEq, Repr

/-- The data layer: a geoshape chart colored by the chosen column, with
legend, scheme, tooltip fields, and a lookup joining the boundary
feature property `properties.CODE_INS` to the table key `niscode`. -/
structure DataLayer where
  topo : TopoData
  colorField : String
  legendTitle : PyVal
  scheme : PyVal
  tooltip : List String
  lookupKey : String
  lookupDataKey : String
  lookupFields : List PyVal
  lookupTable : Table
  width : Nat
  height : Nat
  deriving DecidableEq, Repr

/-- One layer of the composed chart. -/
inductive ChartLayer where
  | base (b : BaseLayer)
  | data (d : DataLayer)
  deriving DecidableEq, Repr

/-- The composed chart: an ordered list of stacked layers, later layers
drawn on top. -/
structure LayerChart where
  layers : List ChartLayer
  deriving DecidableEq, Repr

/-- Altair chart addition `a + b`: a two-layer chart with `b` on top. -/
def chartAdd (a : ChartLayer) (b : ChartLayer) : LayerChart :=
  LayerChart.mk [a, b]

/-- The `if legend_title is None: legend_title = column_name` default. -/
def resolveLegendTitle (legend_title : PyVal) (column_name : String) : PyVal :=
  match legend_title with
  | PyVal.none => PyVal.str column_name
  | t => t

/-- Constant opacity 0.9 of the base layer. -/
def opacityNine : Rat := mkRat 9 10

/-- `create_plot(topo_data, data, column_name, data_type, tooltip_columns,
stroke, strokeWidth, legend_title, scheme, missing_color)`.  Python
defaults (`tooltip_columns=None`, `stroke='darkgrey'`, `strokeWidth=0.9`,
`legend_title=None`, `scheme='reds'`, `missing_color='white'`) are
supplied explicitly by callers of this model.  The first step mirrors
`lookup_columns = [column_name]` extended by `tooltip_columns` when it is
not `None`; the tooltip encoding then iterates `tooltip_columns`
unconditionally, which raises for `None`. -/
def create_plot (topo_data : TopoData) (data : Table) (column_name : String)
    (data_type : String) (tooltip_columns : PyVal) (stroke : PyVal)
    (strokeWidth : PyVal) (legend_title : PyVal) (scheme : PyVal)
    (missing_color : PyVal) : Except String LayerChart :=
  let step1 : Except String (List PyVal) :=
    match tooltip_columns with
    | PyVal.none => Except.ok [PyVal.str column_name]
    | t => (pyIterate t).map (fun items => PyVal.str column_name :: items)
  match step1 with
  | Except.error e => Except.error e
  | Except.ok lookup_columns =>
    match pyIterate tooltip_columns with
    | Except.error e => Except.error e
    | Except.ok items =>
      let dataChart : DataLayer :=
        { topo := topo_data
          colorField := column_name ++ ":" ++ data_type
          legendTitle := resolveLegendTitle legend_title column_name
          scheme := scheme
          tooltip := items.map (fun c => pyStr c ++ ":N")
          lookupKey := "properties.CODE_INS"
          lookupDataKey := "niscode"
          lookupFields := lookup_columns
          lookupTable := data
          width := 600
          height := 450 }
      let missingChart : BaseLayer :=
        { topo := topo_data
          stroke := stroke
          strokeWidth := strokeWidth
          colorValue := missing_color
          opacityValue := opacityNine }
      Except.ok (chartAdd (ChartLayer.base missingChart) (ChartLayer.data dataChart))

/-- `create_quantitative_plot`: delegates to `create_plot` with data type
`'Q'`, passing its remaining arguments positionally — exactly as the
source does, which lands them one parameter slot early (`stroke` in the
`tooltip_columns` slot, and so on), with `missing_color` left at the
callee's default `'white'`. -/
def create_quantitative_plot (topo_data : TopoData) (data : Table)
    (column_name : String) (stroke : PyVal) (strokeWidth : PyVal)
    (legend_title : PyVal) (scheme : PyVal) (missing_color : PyVal) :
    Except String LayerChart :=
  create_plot topo_data data column_name "Q" stroke strokeWidth legend_title
    scheme missing_color (PyVal.str "white")

/-- `create_nominal_plot`: same positional delegation with data type `'N'`. -/
def create_nominal_plot (topo_data : TopoData) (data : Table)
    (column_name : String) (stroke : PyVal) (strokeWidth : PyVal)
    (legend_title : PyVal) (scheme : PyVal) (missing_color : PyVal) :
    Except String LayerChart :=
  create_plot topo_data data column_name "N" stroke strokeWidth legend_title
    scheme missing_color (PyVal.str "white")

/-- The successful payload of a builder result, if any. -/
def okSpec : Except String LayerChart → Option LayerChart
  | Except.ok s => Option.some s
  | Except.error _ => Option.none

/-- The data layer of a chart, if any. -/
def getDataLayer (c : LayerChart) : Option DataLayer :=
  c.layers.findSome? (fun l =>
    match l with
    | ChartLayer.data d => Option.some d
    | ChartLayer.base _ => Option.none)

/-- Whether a layer is the data-colored layer. -/
def isDataLayer : ChartLayer → Bool
  | ChartLayer.data _ => true
  | ChartLayer.base _ => false

/-- All tooltip fields appearing in a chart, in layer order. -/
def tooltipFields (c : LayerChart) : List String :=
  c.layers.foldr
    (fun l acc =>
      match l with
      | ChartLayer.data d => d.tooltip ++ acc
      | ChartLayer.base _ => acc) []

example : isNisName "NisCode" = true := by decide
example : isNisName "NISCODE" = true := by decide
example : isNisName "Name" = false := by decide
example : lowerEndsWith "Data.CSV" ".csv" = true := by decide
example : lowerEndsWith "book.xlsx" ".csv" = false := by decide
example :
    validate_data [Column.mk "NisCode" [Value.VInt 1000],
      Column.mk "Name" [Value.VStr "Antwerp"]]
      = (Option.none,
          [Column.mk "niscode" [Value.VInt 1000],
            Column.mk "Name" [Value.VStr "Antwerp"]]) := by decide

/-- Setting an index of a list to the element already there is the
identity. -/
theorem set_get_self (l : List α) : ∀ (i : Nat) (h : i < l.length),
    l.set i l[i] = l := by
  induction l with
  | nil => intro i h; simp at h
  | cons a rest ih =>
    intro i h
    cases i with
    | zero => rfl
    | succ j => simpa using ih j (by simpa using h)

/-- The enumeration scan finds as many positions as there are matching
columns. -/
theorem nisPositionsFrom_length (l : List Column) : ∀ k : Nat,
    (nisPositionsFrom k l).length = l.countP (fun c => isNisName c.name) := by
  induction l with
  | nil => intro k; rfl
  | cons c rest ih =>
    intro k
    unfold nisPositionsFrom
    rw [List.countP_cons]
    by_cases h : isNisName c.name
    · simp [h, ih]
    · simp [h, ih]

/-- Shifting the enumeration origin shifts every reported position. -/
theorem nisPositionsFrom_shift (l : List Column) : ∀ k : Nat,
    nisPositionsFrom (k + 1) l = (nisPositionsFrom k l).map (fun x => x + 1) := by
  induction l with
  | nil => intro k; rfl
  | cons c rest ih =>
    intro k
    unfold nisPositionsFrom
    by_cases h : isNisName c.name
    · simp [h, ih]
    · simp [h, ih]

/-- When the scan finds exactly one position, that position is in range
and the column there matches the join key name. -/
theorem nisPositions_singleton_bound (l : List Column) : ∀ i : Nat,
    nisPositionsFrom 0 l = [i] →
      ∃ h : i < l.length, isNisName (l.get ⟨i, h⟩).name = true := by
  induction l with
  | nil => intro i h; simp [nisPositionsFrom] at h
  | cons c rest ih =>
    intro i h
    unfold nisPositionsFrom at h
    by_cases hc : isNisName c.name
    · rw [if_pos hc] at h
      injection h with h1 h2
      subst h1
      exact ⟨by simp, hc⟩
    · rw [if_neg hc, nisPositionsFrom_shift] at h
      cases hF : nisPositionsFrom 0 rest with
      | nil => rw [hF] at h; simp at h
      | cons a tail =>
        rw [hF] at h
        simp only [List.map_cons, List.cons.injEq] at h
        obtain ⟨h1, h2⟩ := h
        have ht : tail = [] := by
          cases tail with
          | nil => rfl
          | cons x xs => simp at h2
        subst ht
        subst h1
        obtain ⟨hb, hm⟩ := ih a (by rw [hF])
        exact ⟨by simpa using Nat.succ_lt_succ hb, by simpa using hm⟩

/-- After renaming the unique matching column, the by-name lookup of
`niscode` returns exactly that renamed column. -/
theorem find_after_rename (l : List Column) : ∀ (i : Nat) (v : List Value),
    nisPositionsFrom 0 l = [i] →
      (l.set i (Column.mk "niscode" v)).find? (fun c => c.name == "niscode")
        = Option.some (Column.mk "niscode" v) := by
  induction l with
  | nil => intro i v h; simp [nisPositionsFrom] at h
  | cons c rest ih =>
    intro i v h
    unfold nisPositionsFrom at h
    by_cases hc : isNisName c.name
    · rw [if_pos hc] at h
      injection h with h1 h2
      subst h1
      simp [List.set]
    · rw [if_neg hc, nisPositionsFrom_shift] at h
      cases hF : nisPositionsFrom 0 rest with
      | nil => rw [hF] at h; simp at h
      | cons a tail =>
        rw [hF] at h
        simp only [List.map_cons, List.cons.injEq] at h
        obtain ⟨h1, h2⟩ := h
        have ht : tail = [] := by
          cases tail with
          | nil => rfl
          | cons x xs => simp at h2
        subst ht
        subst h1
        have hhead : ¬ ((fun x : Column => x.name == "niscode") c = true) := by
          intro hb
          apply hc
          have hn : c.name = "niscode" := by simpa using hb
          rw [hn]
          decide
        simp only [List.set]
        exact Eq.trans
          (@List.find?_cons_of_neg Column (fun x : Column => x.name == "niscode") c
            (rest.set a (Column.mk "niscode" v)) hhead)
          (ih a v (by rw [hF]))

/-- The dtype check can only stay silent or raise the type / attribute
errors. -/
theorem nisDtypeCheck_cases (r : Table) :
    nisDtypeCheck r = Option.none ∨
      nisDtypeCheck r = Option.some invalidJoinKeyTypeMsg ∨
      nisDtypeCheck r = Option.some attributeErrorMsg := by
  unfold nisDtypeCheck
  cases r.find? (fun c => c.name == "niscode") with
  | none => simp
  | some c =>
    by_cases h : int64Dtype c.values
    · simp [h]
    · simp [h]

/-- C1: validation raises the insufficient-columns error exactly for
tables with fewer than two columns (this check takes precedence over the
join-key scan), the missing-join-key error exactly for tables with at
least two columns and no case-insensitive match of "niscode", and the
ambiguous-join-key error exactly for tables with at least two columns
and more than one match; no other condition raises these three errors. -/
theorem validate_error_conditions (t : Table) :
    ((validate_data t).1 = Option.some insufficientColumnsMsg ↔ t.length < 2) ∧
    ((validate_data t).1 = Option.some missingJoinKeyMsg ↔
      2 ≤ t.length ∧ t.countP (fun c => isNisName c.name) = 0) ∧
    ((validate_data t).1 = Option.some ambiguousJoinKeyMsg ↔
      2 ≤ t.length ∧ 2 ≤ t.countP (fun c => isNisName c.name)) := by
  have hcount : (nisPositions t).length = t.countP (fun c => isNisName c.name) :=
    nisPositionsFrom_length t 0
  unfold validate_data
  by_cases h1 : t.length < 2
  · rw [if_pos h1]
    refine ⟨⟨fun _ => h1, fun _ => rfl⟩, ?_, ?_⟩
    · constructor
      · intro h
        exact absurd (Option.some.inj h) (by decide)
      · intro h
        omega
    · constructor
      · intro h
        exact absurd (Option.some.inj h) (by decide)
      · intro h
        omega
  · rw [if_neg h1]
    by_cases h2 : 1 < (nisPositions t).length
    · rw [if_pos h2]
      refine ⟨?_, ?_, ?_⟩
      · constructor
        · intro h
          exact absurd (Option.some.inj h) (by decide)
        · intro h
          omega
      · constructor
        · intro h
          exact absurd (Option.some.inj h) (by decide)
        · intro h
          omega
      · exact ⟨fun _ => ⟨by omega, by omega⟩, fun _ => rfl⟩
    · rw [if_neg h2]
      by_cases h3 : (nisPositions t).length = 0
      · rw [if_pos h3]
        refine ⟨?_, ?_, ?_⟩
        · constructor
          · intro h
            exact absurd (Option.some.inj h) (by decide)
          · intro h
            omega
        · exact ⟨fun _ => ⟨by omega, by omega⟩, fun _ => rfl⟩
        · constructor
          · intro h
            exact absurd (Option.some.inj h) (by decide)
          · intro h
            omega
      · rw [if_neg h3]
        rcases nisDtypeCheck_cases (renameNisColumn t) with hd | hd | hd <;> rw [hd]
        · refine ⟨?_, ?_, ?_⟩ <;> constructor <;> intro h
          · exact Option.noConfusion h
          · omega
          · exact Option.noConfusion h
          · omega
          · exact Option.noConfusion h
          · omega
        · refine ⟨?_, ?_, ?_⟩ <;> constructor <;> intro h
          · exact absurd (Option.some.inj h) (by decide)
          · omega
          · exact absurd (Option.some.inj h) (by decide)
          · omega
          · exact absurd (Option.some.inj h) (by decide)
          · omega
        · refine ⟨?_, ?_, ?_⟩ <;> constructor <;> intro h
          · exact absurd (Option.some.inj h) (by decide)
          · omega
          · exact absurd (Option.some.inj h) (by decide)
          · omega
          · exact absurd (Option.some.inj h) (by decide)
          · omega

/-- With exactly one matching column, the rename step is a single
positional `set` of that column's name to "niscode". -/
theorem renameNisColumn_eq (t : Table) (i : Nat) (h1 : nisPositions t = [i])
    (hb : i < t.length) :
    renameNisColumn t = t.set i (Column.mk "niscode" t[i].values) := by
  unfold renameNisColumn
  rw [h1]
  show (match t[i]? with
    | Option.some c => t.set i (Column.mk "niscode" c.values)
    | Option.none => t) = _
  rw [List.getElem?_eq_getElem hb]

/-- With at least two columns and exactly one matching column,
`validate_data` reaches the rename-and-type-check branch. -/
theorem validate_data_last_branch (t : Table) (i : Nat) (h2 : 2 ≤ t.length)
    (h1 : nisPositions t = [i]) :
    validate_data t = (nisDtypeCheck (renameNisColumn t), renameNisColumn t) := by
  unfold validate_data
  rw [if_neg (by omega), if_neg (by simp [h1]), if_neg (by simp [h1])]

/-- The dtype check, rewritten through a known result of the by-name
lookup. -/
theorem nisDtypeCheck_of_find (r : Table) (c : Column)
    (h : r.find? (fun x => x.name == "niscode") = Option.some c) :
    nisDtypeCheck r
      = if int64Dtype c.values then Option.none
        else Option.some invalidJoinKeyTypeMsg := by
  unfold nisDtypeCheck
  rw [h]

/-- The values of the column at position `i` (empty when out of range). -/
def columnValuesAt (t : Table) (i : Nat) : List Value :=
  ((t[i]?).map (fun c => c.values)).getD []

/-- C2 counterexample: a one-column table whose single column matches
"niscode" case-insensitively is not renamed — validation stops at the
column-count check and the name stays "NisCode". -/
def tblSingle : Table := [Column.mk "NisCode" [Value.VInt 1000]]

/-- C2 counterexample theorem: exactly one column of `tblSingle` matches
the join key name, yet after validation no column is named "niscode". -/
theorem singleColumn_not_renamed :
    tblSingle.countP (fun c => isNisName c.name) = 1 ∧
    (validate_data tblSingle).1 = Option.some insufficientColumnsMsg ∧
    ((validate_data tblSingle).2).map (fun c => c.name) = ["NisCode"] := by decide

/-- C2 (amended): for every table with at least two columns in which
exactly one column name matches "niscode" case-insensitively, the table
state after validation has that column renamed in place (same position)
to "niscode" with its values preserved exactly, and every other column
name untouched, including its case. -/
theorem rename_canonicalizes (t : Table) (i : Nat) (h2 : 2 ≤ t.length)
    (h1 : nisPositions t = [i]) :
    ((validate_data t).2).map (fun c => c.values) = t.map (fun c => c.values) ∧
    ((validate_data t).2).map (fun c => c.name)
      = (t.map (fun c => c.name)).set i "niscode" := by
  obtain ⟨hb, _⟩ := nisPositions_singleton_bound t i h1
  have hsnd : (validate_data t).2 = t.set i (Column.mk "niscode" t[i].values) := by
    rw [validate_data_last_branch t i h2 h1]
    exact renameNisColumn_eq t i h1 hb
  constructor
  · rw [hsnd, List.map_set]
    have hm : i < (t.map (fun c => c.values)).length := by simpa using hb
    have hv : t[i].values = (t.map (fun c => c.values))[i] := by simp
    rw [hv]
    exact set_get_self (t.map (fun c => c.values)) i hm
  · rw [hsnd, List.map_set]

/-- Round-trip table of the spec: columns NisCode, Name, Value. -/
def tblRoundTrip : Table :=
  [Column.mk "NisCode" [Value.VInt 1000], Column.mk "Name" [Value.VStr "Antwerp"],
    Column.mk "Value" [Value.VInt 42]]

/-- Witness for the amended C2 theorem at the spec's round-trip table. -/
theorem rename_canonicalizes_witness :
    ((validate_data tblRoundTrip).2).map (fun c => c.values)
        = tblRoundTrip.map (fun c => c.values) ∧
    ((validate_data tblRoundTrip).2).map (fun c => c.name)
        = (tblRoundTrip.map (fun c => c.name)).set 0 "niscode" :=
  rename_canonicalizes tblRoundTrip 0 (by decide) (by decide)

/-- C3: for every table passing the column-count and uniqueness checks,
validation fails with the invalid-join-key-type error exactly when not
every value of the (renamed) join column is a 64-bit integer. -/
theorem invalid_join_key_type_iff (t : Table) (i : Nat) (h2 : 2 ≤ t.length)
    (h1 : nisPositions t = [i]) :
    ((validate_data t).1 = Option.some invalidJoinKeyTypeMsg ↔
      int64Dtype (columnValuesAt t i) = false) := by
  obtain ⟨hb, _⟩ := nisPositions_singleton_bound t i h1
  have hfst : (validate_data t).1 = nisDtypeCheck (renameNisColumn t) := by
    rw [validate_data_last_branch t i h2 h1]
  rw [hfst, renameNisColumn_eq t i h1 hb,
    nisDtypeCheck_of_find _ _ (find_after_rename t i (t[i].values) h1)]
  have hv : columnValuesAt t i = t[i].values := by
    unfold columnValuesAt
    rw [List.getElem?_eq_getElem hb]
    rfl
  rw [hv]
  by_cases hd : int64Dtype t[i].values
  · rw [if_pos hd]
    simp [hd]
  · rw [if_neg hd]
    simp [hd]

/-- Table whose join column holds a float: validation must reject it. -/
def tblFloat : Table :=
  [Column.mk "NisCode" [Value.VFloat 7], Column.mk "v" [Value.VInt 1]]

/-- Witness for C3 at a table whose join column holds a float. -/
theorem invalid_join_key_type_iff_witness :
    ((validate_data tblFloat).1 = Option.some invalidJoinKeyTypeMsg ↔
      int64Dtype (columnValuesAt tblFloat 0) = false) :=
  invalid_join_key_type_iff tblFloat 0 (by decide) (by decide)

/-- C4 counterexample: on `tblFloat` validation raises the type error,
yet the caller's table has been mutated — the join column was already
renamed, so the failed run is observable. -/
theorem rename_persists_on_type_error :
    (validate_data tblFloat).1 = Option.some invalidJoinKeyTypeMsg ∧
    (validate_data tblFloat).2 ≠ tblFloat := by decide

/-- C4 (amended): the three structural errors leave the table in its
original state, but when validation fails with the invalid-join-key-type
error the join column has already been renamed in place, so the caller
observes a partially canonicalized table. -/
theorem validate_mutation_characterization (t : Table) (e : String) (tf : Table)
    (h : validate_data t = (Option.some e, tf)) :
    (e ≠ invalidJoinKeyTypeMsg → tf = t) ∧
    (e = invalidJoinKeyTypeMsg → tf = renameNisColumn t) := by
  unfold validate_data at h
  by_cases h1 : t.length < 2
  · rw [if_pos h1, Prod.mk.injEq] at h
    obtain ⟨he, ht⟩ := h
    have he2 : insufficientColumnsMsg = e := Option.some.inj he
    constructor
    · intro _
      exact ht.symm
    · intro hinv
      exact absurd (he2.trans hinv) (by decide)
  · rw [if_neg h1] at h
    by_cases h2 : 1 < (nisPositions t).length
    · rw [if_pos h2, Prod.mk.injEq] at h
      obtain ⟨he, ht⟩ := h
      have he2 : ambiguousJoinKeyMsg = e := Option.some.inj he
      constructor
      · intro _
        exact ht.symm
      · intro hinv
        exact absurd (he2.trans hinv) (by decide)
    · rw [if_neg h2] at h
      by_cases h3 : (nisPositions t).length = 0
      · rw [if_pos h3, Prod.mk.injEq] at h
        obtain ⟨he, ht⟩ := h
        have he2 : missingJoinKeyMsg = e := Option.some.inj he
        constructor
        · intro _
          exact ht.symm
        · intro hinv
          exact absurd (he2.trans hinv) (by decide)
      · rw [if_neg h3, Prod.mk.injEq] at h
        obtain ⟨he, ht⟩ := h
        obtain ⟨i, hi⟩ := List.length_eq_one.mp (show (nisPositions t).length = 1 by omega)
        obtain ⟨hb, _⟩ := nisPositions_singleton_bound t i hi
        rw [renameNisColumn_eq t i hi hb,
          nisDtypeCheck_of_find _ _ (find_after_rename t i (t[i].values) hi)] at he
        by_cases hd : int64Dtype t[i].values
        · rw [if_pos hd] at he
          exact Option.noConfusion he
        · rw [if_neg hd] at he
          have he2 : invalidJoinKeyTypeMsg = e := Option.some.inj he
          constructor
          · intro hne
            exact absurd he2.symm hne
          · intro _
            exact ht.symm

/-- Witness for the amended C4 theorem at the float-keyed table. -/
theorem validate_mutation_characterization_witness :
    (invalidJoinKeyTypeMsg ≠ invalidJoinKeyTypeMsg → renameNisColumn tblFloat = tblFloat) ∧
    (invalidJoinKeyTypeMsg = invalidJoinKeyTypeMsg →
      renameNisColumn tblFloat = renameNisColumn tblFloat) :=
  validate_mutation_characterization tblFloat invalidJoinKeyTypeMsg
    (renameNisColumn tblFloat) (by decide)

/-- A name ending (case-insensitively) in ".xlsx" cannot also end in
".csv": the suffixes differ already at their last four characters. -/
theorem xlsx_not_csv (s : String) (h : lowerEndsWith s ".xlsx" = true) :
    lowerEndsWith s ".csv" = false := by
  have h2 : List.isPrefixOf ['x', 's', 'l', 'x', '.']
      ((s.data.map Char.toLower).reverse) = true := h
  show List.isPrefixOf ['v', 's', 'c', '.'] ((s.data.map Char.toLower).reverse) = false
  generalize (s.data.map Char.toLower).reverse = m at h2 ⊢
  cases m with
  | nil => simp [List.isPrefixOf] at h2
  | cons a m2 =>
    simp only [List.isPrefixOf, Bool.and_eq_true, beq_iff_eq] at h2
    obtain ⟨ha, _⟩ := h2
    subst ha
    simp [List.isPrefixOf]

/-- C8: both reader entry points dispatch purely on the case-insensitive
extension suffix — ".csv" yields delimited-text parsing with the supplied
encoding and delimiter, ".xlsx" yields spreadsheet parsing that ignores
both, and any other name fails with the unknown-file-type ValueError
naming the offending file. -/
theorem reader_dispatch (uri : String) (bs : List Nat)
    (enc delim : Option String) :
    (lowerEndsWith uri ".csv" = true →
      read_data uri enc delim = Except.ok (ParseAction.readCsv uri enc delim) ∧
      read_file uri bs enc delim = Except.ok (ParseAction.readCsv bs enc delim)) ∧
    (lowerEndsWith uri ".xlsx" = true →
      read_data uri enc delim = Except.ok (ParseAction.readExcel uri) ∧
      read_file uri bs enc delim = Except.ok (ParseAction.readExcel bs)) ∧
    (lowerEndsWith uri ".csv" = false → lowerEndsWith uri ".xlsx" = false →
      read_data uri enc delim = Except.error (unknownFileTypeMsg uri) ∧
      read_file uri bs enc delim = Except.error (unknownFileTypeMsg uri)) := by
  refine ⟨?_, ?_, ?_⟩
  · intro h
    unfold read_data read_file
    rw [if_pos h, if_pos h]
    exact ⟨rfl, rfl⟩
  · intro h
    have hc : lowerEndsWith uri ".csv" = false := xlsx_not_csv uri h
    unfold read_data read_file
    rw [if_neg (by simp [hc]), if_pos h, if_neg (by simp [hc]), if_pos h]
    exact ⟨rfl, rfl⟩
  · intro hc hx
    unfold read_data read_file
    rw [if_neg (by simp [hc]), if_neg (by simp [hx]), if_neg (by simp [hc]),
      if_neg (by simp [hx])]
    exact ⟨rfl, rfl⟩

/-- Witness for C8 at a name with an unsupported extension. -/
theorem reader_dispatch_witness :
    read_data "map.txt" (Option.some "utf-8") (Option.some ";")
        = Except.error (unknownFileTypeMsg "map.txt") ∧
    read_file "map.txt" [0, 1] (Option.some "utf-8") (Option.some ";")
        = Except.error (unknownFileTypeMsg "map.txt") :=
  (reader_dispatch "map.txt" [0, 1] (Option.some "utf-8") (Option.some ";")).2.2
    (by decide) (by decide)

/-- Closed form of `create_plot` on a list of tooltip column names. -/
theorem create_plot_list_eq (topo : TopoData) (tbl : Table) (col dt : String)
    (xs : List String) (st sw lt sch mc : PyVal) :
    create_plot topo tbl col dt (PyVal.list xs) st sw lt sch mc
      = Except.ok (chartAdd
          (ChartLayer.base (BaseLayer.mk topo st sw mc opacityNine))
          (ChartLayer.data (DataLayer.mk topo (col ++ ":" ++ dt)
            (resolveLegendTitle lt col) sch
            ((xs.map PyVal.str).map (fun c => pyStr c ++ ":N"))
            "properties.CODE_INS" "niscode"
            (PyVal.str col :: xs.map PyVal.str) tbl 600 450))) := rfl

/-- Closed form of `create_plot` on a string in the tooltip slot (Python
iterates its characters). -/
theorem create_plot_str_eq (topo : TopoData) (tbl : Table) (col dt : String)
    (s : String) (st sw lt sch mc : PyVal) :
    create_plot topo tbl col dt (PyVal.str s) st sw lt sch mc
      = Except.ok (chartAdd
          (ChartLayer.base (BaseLayer.mk topo st sw mc opacityNine))
          (ChartLayer.data (DataLayer.mk topo (col ++ ":" ++ dt)
            (resolveLegendTitle lt col) sch
            ((s.data.map (fun c => PyVal.str (String.mk [c]))).map
              (fun c => pyStr c ++ ":N"))
            "properties.CODE_INS" "niscode"
            (PyVal.str col :: s.data.map (fun c => PyVal.str (String.mk [c])))
            tbl 600 450))) := rfl

/-- The tooltip fields of a base-plus-data chart are the data layer's. -/
theorem tooltipFields_base_data (b : BaseLayer) (d : DataLayer) :
    tooltipFields (chartAdd (ChartLayer.base b) (ChartLayer.data d)) = d.tooltip := by
  show d.tooltip ++ [] = d.tooltip
  exact List.append_nil _

/-- C6: building with an empty tooltip collection succeeds, the tooltip
field list is empty, and the color encoding (field, legend title, scheme)
is present. -/
theorem empty_tooltip_ok (topo : TopoData) (tbl : Table) (col dt : String)
    (st sw lt sch mc : PyVal) :
    ∃ b d, create_plot topo tbl col dt (PyVal.list []) st sw lt sch mc
        = Except.ok (LayerChart.mk [ChartLayer.base b, ChartLayer.data d]) ∧
      d.tooltip = [] ∧ d.colorField = col ++ ":" ++ dt ∧
      d.legendTitle = resolveLegendTitle lt col ∧ d.scheme = sch :=
  ⟨_, _, rfl, rfl, rfl, rfl, rfl⟩

/-- C7: every successfully built specification is exactly two layers in
fixed order — the base layer first, carrying the stroke and the uniform
missing-data fill over all boundary features, and the data layer (joined
on the niscode key) stacked on top. -/
theorem two_layer_composition (topo : TopoData) (tbl : Table) (col dt : String)
    (tt st sw lt sch mc : PyVal) (spec : LayerChart)
    (h : create_plot topo tbl col dt tt st sw lt sch mc = Except.ok spec) :
    spec.layers.map isDataLayer = [false, true] ∧
    spec.layers.head? = Option.some (ChartLayer.base
      (BaseLayer.mk topo st sw mc opacityNine)) ∧
    (getDataLayer spec).map (fun d => d.lookupDataKey) = Option.some "niscode" := by
  cases tt with
  | none => exact Except.noConfusion h
  | num q => exact Except.noConfusion h
  | list xs =>
    rw [create_plot_list_eq] at h
    have h2 := Except.ok.inj h
    subst h2
    exact ⟨rfl, rfl, rfl⟩
  | str s =>
    rw [create_plot_str_eq] at h
    have h2 := Except.ok.inj h
    subst h2
    exact ⟨rfl, rfl, rfl⟩

/-- Boundary dataset reference used in the application. -/
def topoMun : TopoData := create_topo_data BE_GEO_URL BE_MUNICIPALITIES_FEATURE

/-- The spec's scenario table: columns niscode and population, one row. -/
def tblScenario : Table :=
  [Column.mk "niscode" [Value.VInt 11002], Column.mk "population" [Value.VInt 50000]]

/-- The specification built in the scenario (empty tooltip list,
caller-supplied defaults). -/
def scenarioSpec : LayerChart :=
  (okSpec (create_plot topoMun tblScenario "population" "Q" (PyVal.list [])
    (PyVal.str "darkgrey") (PyVal.num (mkRat 9 10)) PyVal.none (PyVal.str "reds")
    (PyVal.str "white"))).getD (LayerChart.mk [])

/-- Witness for C7 at the scenario arguments. -/
theorem two_layer_composition_witness :
    scenarioSpec.layers.map isDataLayer = [false, true] ∧
    scenarioSpec.layers.head? = Option.some (ChartLayer.base
      (BaseLayer.mk topoMun (PyVal.str "darkgrey") (PyVal.num (mkRat 9 10))
        (PyVal.str "white") opacityNine)) ∧
    (getDataLayer scenarioSpec).map (fun d => d.lookupDataKey)
        = Option.some "niscode" :=
  two_layer_composition topoMun tblScenario "population" "Q" (PyVal.list [])
    (PyVal.str "darkgrey") (PyVal.num (mkRat 9 10)) PyVal.none (PyVal.str "reds")
    (PyVal.str "white") scenarioSpec (by rfl)

/-- C9: with the tooltip argument left at its Python default `None`, the
builder fails with the TypeError raised while building the tooltip
encoding; a number is likewise rejected (already at the lookup-columns
extension), while any iterable — a list of names, possibly empty, or even
a string — succeeds. -/
theorem tooltip_none_fails (topo : TopoData) (tbl : Table) (col dt : String)
    (st sw lt sch mc : PyVal) (xs : List String) (s : String) (q : Rat) :
    create_plot topo tbl col dt PyVal.none st sw lt sch mc
        = Except.error "TypeError: NoneType object is not iterable" ∧
    create_plot topo tbl col dt (PyVal.num q) st sw lt sch mc
        = Except.error "TypeError: float object is not iterable" ∧
    (∃ spec, create_plot topo tbl col dt (PyVal.list xs) st sw lt sch mc
        = Except.ok spec) ∧
    (∃ spec, create_plot topo tbl col dt (PyVal.str s) st sw lt sch mc
        = Except.ok spec) :=
  ⟨rfl, rfl, ⟨_, rfl⟩, ⟨_, rfl⟩⟩

/-- C10: every tooltip field of every successfully built specification is
encoded with the nominal type (the literal ":N" suffix), regardless of
the column's data type and of the chosen color scale type. -/
theorem tooltip_fields_nominal (topo : TopoData) (tbl : Table) (col dt : String)
    (tt st sw lt sch mc : PyVal) (spec : LayerChart)
    (h : create_plot topo tbl col dt tt st sw lt sch mc = Except.ok spec) :
    ∀ f : String, f ∈ tooltipFields spec → ":N".data.isSuffixOf f.data = true := by
  cases tt with
  | none => exact Except.noConfusion h
  | num q => exact Except.noConfusion h
  | list xs =>
    rw [create_plot_list_eq] at h
    have h2 := Except.ok.inj h
    subst h2
    intro f hf
    rw [tooltipFields_base_data] at hf
    obtain ⟨c, _, rfl⟩ := List.mem_map.mp hf
    rw [List.isSuffixOf_iff_suffix, String.data_append]
    exact List.suffix_append _ _
  | str s =>
    rw [create_plot_str_eq] at h
    have h2 := Except.ok.inj h
    subst h2
    intro f hf
    rw [tooltipFields_base_data] at hf
    obtain ⟨c, _, rfl⟩ := List.mem_map.mp hf
    rw [List.isSuffixOf_iff_suffix, String.data_append]
    exact List.suffix_append _ _

/-- Specification built with a one-element tooltip list, for the C10
witness. -/
def demoTooltipSpec : LayerChart :=
  (okSpec (create_plot topoMun tblScenario "population" "Q"
    (PyVal.list ["population"]) (PyVal.str "darkgrey") (PyVal.num (mkRat 9 10))
    PyVal.none (PyVal.str "reds") (PyVal.str "white"))).getD (LayerChart.mk [])

/-- Witness for C10 at the one-element tooltip list. -/
theorem tooltip_fields_nominal_witness :
    ":N".data.isSuffixOf "population:N".data = true :=
  tooltip_fields_nominal topoMun tblScenario "population" "Q"
    (PyVal.list ["population"]) (PyVal.str "darkgrey") (PyVal.num (mkRat 9 10))
    PyVal.none (PyVal.str "reds") (PyVal.str "white") demoTooltipSpec (by rfl)
    "population:N" (by decide)

deriving instance DecidableEq for Except

/-- The quantitative wrapper invoked with its Python default arguments
(stroke 'lightgrey', strokeWidth 0.5, no legend title, scheme 'reds',
missing color 'white'). -/
def shiftedQuantCall : Except String LayerChart :=
  create_quantitative_plot topoMun tblScenario "population" (PyVal.str "lightgrey")
    (PyVal.num (mkRat 1 2)) PyVal.none (PyVal.str "reds") (PyVal.str "white")

/-- The general builder with scale type Q and the same parameters in
their named slots (tooltip at its default `None`). -/
def directQuantCall : Except String LayerChart :=
  create_plot topoMun tblScenario "population" "Q" PyVal.none
    (PyVal.str "lightgrey") (PyVal.num (mkRat 1 2)) PyVal.none (PyVal.str "reds")
    (PyVal.str "white")

/-- The nominal wrapper with its defaults. -/
def shiftedNomCall : Except String LayerChart :=
  create_nominal_plot topoMun tblScenario "population" (PyVal.str "lightgrey")
    (PyVal.num (mkRat 1 2)) PyVal.none (PyVal.str "reds") (PyVal.str "white")

/-- The general builder with scale type N and the same parameters in
their named slots. -/
def directNomCall : Except String LayerChart :=
  create_plot topoMun tblScenario "population" "N" PyVal.none
    (PyVal.str "lightgrey") (PyVal.num (mkRat 1 2)) PyVal.none (PyVal.str "reds")
    (PyVal.str "white")

/-- C5 evaluation: the convenience wrappers do not reproduce the general
builder.  Their positional call shifts every argument one slot early, so
the wrapper builds a chart whose color scheme is 'white' (the missing
color), whose legend title is 'reds' (the scheme) and whose tooltip is
the nine characters of 'lightgrey', while the general builder with
identical parameters fails on the default `None` tooltip. -/
theorem wrapper_argument_shift_bug :
    ((okSpec shiftedQuantCall).bind getDataLayer).map (fun d => d.scheme)
        = Option.some (PyVal.str "white") ∧
    ((okSpec shiftedQuantCall).bind getDataLayer).map (fun d => d.legendTitle)
        = Option.some (PyVal.str "reds") ∧
    ((okSpec shiftedQuantCall).bind getDataLayer).map (fun d => d.tooltip.length)
        = Option.some 9 ∧
    directQuantCall = Except.error "TypeError: NoneType object is not iterable" ∧
    shiftedQuantCall ≠ directQuantCall ∧
    shiftedNomCall ≠ directNomCall := by decide
